import Mathlib

/-!
# Verification of the wot-py `ExposedThing` runtime

Shallow embedding of `src/wotpy/wot/exposed/thing.py` (the `ExposedThing`
class): handler registries with global/per-interaction precedence, the
property state store, the read/write/invoke call contracts, the
subscription helpers and the mutation operations, together with the events
they publish.

The interaction registry owned by the underlying `Thing`
(`find_interaction` / `add_interaction` / `remove_interaction`), the init
dictionaries and the event classes live outside the visible source; those
parts are modelled from the specification and are marked as such in their
doc comments.  Everything else is translated directly from the Python
source.
-/

namespace WotPy

/-- JSON-ish runtime values passed through properties, actions and event
payloads.  Python `None` is `Value.null`; `_get_property_value` returns
`None` for a missing key, which this embedding renders as `Value.null`. -/
inductive Value where
  | null
  | boolV (b : Bool)
  | intV (n : Int)
  | strV (s : String)
deriving DecidableEq, Repr

/-- Kind tag of an interaction (`Property`, `Action`, `Event` classes of
`wotpy.td.interaction`). -/
inductive InteractionKind where
  | property
  | action
  | event
deriving DecidableEq, Repr

/-- An interaction definition as constructed in `thing.py` (`Property(thing,
id=name, label=..., description=..., value_type=..., writable=...,
observable=...)`); actions and events reuse the record with the unused
flags left at their defaults.  Identity is by value: names are unique
within a Thing, so value equality coincides with Python object identity
for interactions obtained from the registry. -/
structure Interaction where
  id : String
  kind : InteractionKind
  label : Option String := none
  description : Value := Value.null
  value_type : Value := Value.null
  writable : Bool := false
  observable : Bool := false
deriving DecidableEq, Repr

/-- Modelled from the spec: the InteractionRegistry owned by the underlying
Thing (`wotpy.td.thing`, not under `src/`) is "the current set of
Property/Action/Event definitions"; the core needs only lookup-by-name.
`Thing.find_interaction(name=...)` returns the interaction with the given
name, or `None`. -/
def find_interaction (thing : List Interaction) (name : String) : Option Interaction :=
  thing.find? (fun i => i.id == name)

/-- Modelled from the spec: `Thing.add_interaction` (not under `src/`)
adds a definition to the registry; interaction identity is its name,
"unique within a Thing", so adding a duplicate name fails. -/
def add_interaction (thing : List Interaction) (i : Interaction) :
    Option (List Interaction) :=
  match find_interaction thing i.id with
  | some _ => none
  | none => some (thing ++ [i])

/-- Modelled from the spec: `Thing.remove_interaction(name=...)` (not under
`src/`) removes the definition with the given name from the registry. -/
def remove_interaction (thing : List Interaction) (name : String) : List Interaction :=
  thing.filter (fun i => i.id != name)

/-- `ExposedThing.HandlerKeys`: enumeration of handler keys, exactly the
four string constants of the source. -/
inductive HandlerKeys where
  | retrieveProperty
  | updateProperty
  | invokeAction
  | observe
deriving DecidableEq, Repr

/-- The property-values store `_interaction_states[PROPERTY_VALUES]`: a
dict keyed by the interaction object.  Modelled as an association list;
assignment conses (lookup sees the latest binding, matching dict
overwrite). -/
def PropMap := List (Interaction × Value)

/-- Dict lookup `d.get(prop, None)` on the property store, before the
`None` default is applied. -/
def lookupV (m : PropMap) (i : Interaction) : Option Value :=
  (m.find? (fun p => p.1 == i)).map (fun p => p.2)

/-- Dict assignment `d[prop] = value` on the property store. -/
def setV (m : PropMap) (i : Interaction) (v : Value) : PropMap :=
  (i, v) :: m

/-- The errors raised by the source (and those user handlers may raise),
one constructor per raise site. -/
inductive Error where
  | interactionNotFound (name : String)
  | propertyNonWritable
  | undefinedActionHandler
  | unknownEvent
  | unknownProperty
  | propertyNotObservable
  | unknownEventName (name : String)
  | handlerTypeError
  | keyErrorGlobalHandler
  | duplicateInteraction (name : String)
  | custom (code : Nat)
deriving DecidableEq, Repr

/-- A value stored in a handler dictionary.  The source stores Python
callables; here each callable is either one of the three default handlers
(whose bodies are translated below) or an opaque user-supplied function
over the data it may touch.  All callables are truthy, so the `or`
fallback in `_get_handler` fires exactly when the per-interaction lookup
misses. -/
inductive HandlerVal where
  | retrieveDefault
  | retrieveCustom (f : String → PropMap → Except Error Value)
  | updateDefault
  | updateCustom (f : String → Value → PropMap → Except Error PropMap)
  | invokeDefault
  | invokeCustom (f : List Value → Except Error Value)

/-- The two handler dictionaries of `ExposedThing.__init__`:
`_handlers_global` (kind → handler, seeded with the three defaults) and
`_handlers` (kind → (interaction → handler), seeded with three empty
dicts).  Missing dict keys are `none`; in particular neither dict has an
entry for the `observe` key. -/
structure HandlerRegistry where
  handlersGlobal : HandlerKeys → Option HandlerVal
  handlers : HandlerKeys → Option (List (Interaction × HandlerVal))

/-- `_handlers_global` as seeded by `__init__`. -/
def initHandlersGlobal : HandlerKeys → Option HandlerVal
  | .retrieveProperty => some .retrieveDefault
  | .updateProperty => some .updateDefault
  | .invokeAction => some .invokeDefault
  | .observe => none

/-- `_handlers` as seeded by `__init__`. -/
def initHandlers : HandlerKeys → Option (List (Interaction × HandlerVal))
  | .retrieveProperty => some []
  | .updateProperty => some []
  | .invokeAction => some []
  | .observe => none

/-- Handler registry state right after `__init__`. -/
def initRegistry : HandlerRegistry :=
  { handlersGlobal := initHandlersGlobal, handlers := initHandlers }

/-- Dict lookup in one per-interaction handler dict:
`self._handlers.get(handler_type, {}).get(interaction, None)`. -/
def lookupHandler (m : Option (List (Interaction × HandlerVal))) (i : Interaction) :
    Option HandlerVal :=
  ((m.getD []).find? (fun p => p.1 == i)).map (fun p => p.2)

/-- `ExposedThing._set_handler`: stores the handler globally when no
interaction is given or when the handler type has no per-interaction dict
(`handler_type not in self._handlers`), otherwise in the per-interaction
dict. -/
def setHandler (r : HandlerRegistry) (handler_type : HandlerKeys) (handler : HandlerVal)
    (interaction : Option Interaction) : HandlerRegistry :=
  match interaction with
  | none =>
      { r with handlersGlobal :=
          fun k => if k = handler_type then some handler else r.handlersGlobal k }
  | some it =>
      match r.handlers handler_type with
      | none =>
          { r with handlersGlobal :=
              fun k => if k = handler_type then some handler else r.handlersGlobal k }
      | some m =>
          { r with handlers :=
              fun k => if k = handler_type then some ((it, handler) :: m) else r.handlers k }

/-- `ExposedThing._get_handler`: the per-interaction override if present
(callables are truthy, so `or` falls through exactly on a missing key),
else `self._handlers_global[handler_type]`; `none` models the `KeyError`
raised when the global dict has no entry for the key. -/
def getHandler (r : HandlerRegistry) (handler_type : HandlerKeys)
    (interaction : Option Interaction) : Option HandlerVal :=
  let interaction_handler :=
    match interaction with
    | none => none
    | some it => lookupHandler (r.handlers handler_type) it
  match interaction_handler with
  | some h => some h
  | none => r.handlersGlobal handler_type

/-- The state of one `ExposedThing`: the underlying Thing's interaction
registry, the property-values store and the two handler dicts.  The events
stream is not state — each operation below returns the list of events it
pushes onto `_events_stream`, in publish order. -/
structure ExposedThing where
  thing : List Interaction
  propertyValues : PropMap
  handlers : HandlerRegistry

/-- `ExposedThing.__init__`: empty property store, default handlers. -/
def ExposedThing.init (thing : List Interaction) : ExposedThing :=
  { thing := thing, propertyValues := [], handlers := initRegistry }

/-- Event-name constants.  Modelled from the spec: `DefaultThingEvent`
(not under `src/`) gives the bus names of the built-in events;
§4.3 fixes "propertychange" and "descriptionchange". -/
def PROPERTY_CHANGE : String := "propertychange"

/-- Modelled from the spec: bus name of description-change events. -/
def DESCRIPTION_CHANGE : String := "descriptionchange"

/-- Modelled from the spec: bus name of action-invocation events (distinct
from the property/description names). -/
def ACTION_INVOCATION : String := "actioninvocation"

/-- `TDChangeType` enumeration. -/
inductive TDChangeType where
  | property
  | action
  | event
deriving DecidableEq, Repr

/-- `TDChangeMethod` enumeration. -/
inductive TDChangeMethod where
  | add
  | remove
deriving DecidableEq, Repr

/-- `ThingPropertyInit`, restricted to the attributes `add_property`
reads: `label`, `description`, `value_type`, `writable`, `observable`,
`value`. -/
structure ThingPropertyInit where
  label : Option String := none
  description : Value := Value.null
  value_type : Value := Value.null
  writable : Bool := true
  observable : Bool := true
  value : Value := Value.null
deriving DecidableEq, Repr

/-- Modelled from the spec: `ThingPropertyInit.to_dict()` serializes the
interaction definition; the serialized form is identified with the init
record itself. -/
def ThingPropertyInit.to_dict (p : ThingPropertyInit) : ThingPropertyInit := p

/-- Modelled from the spec: `ThingDescription.from_thing(thing).to_dict()`
is "the full current Thing description", identified with the current
contents of the interaction registry. -/
def thingDescriptionOf (thing : List Interaction) : List Interaction := thing

/-- Payload (`init`/`data`) of an event on the bus, a tagged union over
the event-init classes plus raw user payloads. -/
inductive EventData where
  | propChange (pname : String) (value : Value)
  | actionInv (aname : String) (ret : Value)
  | tdChange (td_change_type : TDChangeType) (method : TDChangeMethod) (iname : String)
      (data : Option ThingPropertyInit) (description : Option (List Interaction))
  | plain (payload : Value)
deriving DecidableEq, Repr

/-- One event on `_events_stream`: its bus name (`item.name`) and its
payload (`item.data`). -/
structure Event where
  name : String
  data : EventData
deriving DecidableEq, Repr

/-- `item.data.name`, the interaction name carried by the payload (`none`
for payloads without one). -/
def Event.dataName : Event → Option String
  | ⟨_, .propChange p _⟩ => some p
  | ⟨_, .actionInv a _⟩ => some a
  | ⟨_, .tdChange _ _ n _ _⟩ => some n
  | ⟨_, .plain _⟩ => none

/-- Run a handler stored under the UPDATE_PROPERTY key as
`handler(name, value)`.  The default body is
`_default_update_property_handler`: re-find the interaction, store the
value; a handler of the wrong arity fails. -/
def runUpdateHandler (h : HandlerVal) (name : String) (value : Value)
    (t : ExposedThing) : Except Error PropMap :=
  match h with
  | .updateDefault =>
      match find_interaction t.thing name with
      | none => .error (.interactionNotFound name)
      | some prop => .ok (setV t.propertyValues prop value)
  | .updateCustom f => f name value t.propertyValues
  | _ => .error .handlerTypeError

/-- Run a handler stored under the RETRIEVE_PROPERTY key as
`handler(name)`.  The default body is
`_default_retrieve_property_handler`: re-find the interaction, return the
stored value or `None`. -/
def runRetrieveHandler (h : HandlerVal) (name : String) (t : ExposedThing) :
    Except Error Value :=
  match h with
  | .retrieveDefault =>
      match find_interaction t.thing name with
      | none => .error (.interactionNotFound name)
      | some prop => .ok ((lookupV t.propertyValues prop).getD Value.null)
  | .retrieveCustom f => f name t.propertyValues
  | _ => .error .handlerTypeError

/-- Run a handler stored under the INVOKE_ACTION key as `handler(*args)`.
The default body is `_default_invoke_action_handler`, which takes no
arguments — calling it with arguments is a Python `TypeError`, and with
none it returns a future failed with "Undefined action handler". -/
def runInvokeHandler (h : HandlerVal) (args : List Value) : Except Error Value :=
  match h with
  | .invokeDefault =>
      if args.isEmpty then .error .undefinedActionHandler else .error .handlerTypeError
  | .invokeCustom f => f args
  | _ => .error .handlerTypeError

/-- `ExposedThing.read_property`: `_find_interaction` (raising on a
missing name), resolve the RETRIEVE_PROPERTY handler, await it, return
its value.  No state change and no event is published. -/
def read_property (t : ExposedThing) (name : String) : Except Error Value :=
  match find_interaction t.thing name with
  | none => .error (.interactionNotFound name)
  | some interaction =>
    match getHandler t.handlers .retrieveProperty (some interaction) with
    | none => .error .keyErrorGlobalHandler
    | some handler => runRetrieveHandler handler name t

/-- `ExposedThing.write_property`: `_find_interaction`, the `writable`
check (raising `TypeError` before any handler is resolved), resolve the
UPDATE_PROPERTY handler, await it, and only then push one
`PropertyChangeEmittedEvent` with init `{name, value}`.  The second
component is the list of events pushed onto `_events_stream`. -/
def write_property (t : ExposedThing) (name : String) (value : Value) :
    Except Error ExposedThing × List Event :=
  match find_interaction t.thing name with
  | none => (.error (.interactionNotFound name), [])
  | some interaction =>
    if !interaction.writable then (.error .propertyNonWritable, [])
    else
      match getHandler t.handlers .updateProperty (some interaction) with
      | none => (.error .keyErrorGlobalHandler, [])
      | some handler =>
        match runUpdateHandler handler name value t with
        | .error e => (.error e, [])
        | .ok m =>
            (.ok { t with propertyValues := m },
             [⟨PROPERTY_CHANGE, .propChange name value⟩])

/-- `ExposedThing.invoke_action`: `_find_interaction`, resolve the
INVOKE_ACTION handler, await `handler(*args)`, then push one
`ActionInvocationEmittedEvent` with init `{action_name, return_value}`
and return the result. -/
def invoke_action (t : ExposedThing) (name : String) (args : List Value) :
    Except Error Value × List Event :=
  match find_interaction t.thing name with
  | none => (.error (.interactionNotFound name), [])
  | some interaction =>
    match getHandler t.handlers .invokeAction (some interaction) with
    | none => (.error .keyErrorGlobalHandler, [])
    | some handler =>
      match runInvokeHandler handler args with
      | .error e => (.error e, [])
      | .ok result => (.ok result, [⟨ACTION_INVOCATION, .actionInv name result⟩])

/-- `ExposedThing.on_event`: throws "Unknown event" when
`_find_interaction` fails, else the stream filtered by
`item.name == name`. -/
def on_event (t : ExposedThing) (name : String) : Except Error (Event → Bool) :=
  match find_interaction t.thing name with
  | none => .error .unknownEvent
  | some _ => .ok (fun item => item.name == name)

/-- `ExposedThing.on_property_change`: throws "Unknown property" when
`_find_interaction` fails, "Property is not observable" when the
`observable` flag is false, else the stream filtered by
`item.name == PROPERTY_CHANGE and item.data.name == name`. -/
def on_property_change (t : ExposedThing) (name : String) :
    Except Error (Event → Bool) :=
  match find_interaction t.thing name with
  | none => .error .unknownProperty
  | some interaction =>
    if !interaction.observable then .error .propertyNotObservable
    else .ok (fun item => item.name == PROPERTY_CHANGE && item.dataName == some name)

/-- `ExposedThing.on_td_change`: the stream filtered by
`item.name == DESCRIPTION_CHANGE`; always valid. -/
def on_td_change (_t : ExposedThing) : Event → Bool :=
  fun item => item.name == DESCRIPTION_CHANGE

/-- `ExposedThing.emit_event`: raises `ValueError("Unknown event: ...")`
when no interaction carries the name, else pushes one `EmittedEvent` with
that name and the payload. -/
def emit_event (t : ExposedThing) (event_name : String) (payload : Value) :
    Except Error Unit × List Event :=
  match find_interaction t.thing event_name with
  | none => (.error (.unknownEventName event_name), [])
  | some _ => (.ok (), [⟨event_name, .plain payload⟩])

/-- `ExposedThing.add_property`: build the `Property` from the init,
`add_interaction`, seed the store with `property_init.value`, then push
one `ThingDescriptionChangeEmittedEvent` with change type PROPERTY,
method ADD, the name, `data=property_init.to_dict()` and
`description=ThingDescription.from_thing(self.thing).to_dict()` (computed
after the add). -/
def add_property (t : ExposedThing) (name : String) (property_init : ThingPropertyInit) :
    Except Error ExposedThing × List Event :=
  let prop : Interaction :=
    { id := name, kind := .property, label := property_init.label,
      description := property_init.description,
      value_type := property_init.value_type,
      writable := property_init.writable,
      observable := property_init.observable }
  match add_interaction t.thing prop with
  | none => (.error (.duplicateInteraction name), [])
  | some thing' =>
      let t' : ExposedThing :=
        { t with thing := thing',
                 propertyValues := setV t.propertyValues prop property_init.value }
      (.ok t',
       [⟨DESCRIPTION_CHANGE,
         .tdChange .property .add name (some property_init.to_dict)
           (some (thingDescriptionOf thing'))⟩])

/-- `ExposedThing.remove_event`: `remove_interaction`, then push one
`ThingDescriptionChangeEmittedEvent` with change type EVENT, method
REMOVE and the name (no `data`, no `description`). -/
def remove_event (t : ExposedThing) (name : String) : ExposedThing × List Event :=
  let thing' := remove_interaction t.thing name
  ({ t with thing := thing' },
   [⟨DESCRIPTION_CHANGE, .tdChange .event .remove name none none⟩])

/-- `ExposedThing.set_property_write_handler` with a property name:
`_find_interaction` then `_set_handler` under the UPDATE_PROPERTY key. -/
def set_property_write_handler (t : ExposedThing) (write_handler : HandlerVal)
    (property_name : Option String) : Except Error ExposedThing :=
  match property_name with
  | none => .ok { t with handlers := setHandler t.handlers .updateProperty write_handler none }
  | some n =>
    match find_interaction t.thing n with
    | none => .error (.interactionNotFound n)
    | some i => .ok { t with handlers := setHandler t.handlers .updateProperty write_handler (some i) }

/-! ## Concrete fixtures used by the witness theorems -/

/-- A writable, observable property named "p". -/
def sampleProp : Interaction :=
  { id := "p", kind := .property, writable := true, observable := true }

/-- A non-writable, non-observable property named "q". -/
def samplePropRO : Interaction :=
  { id := "q", kind := .property, writable := false, observable := false }

/-- An action named "act". -/
def sampleAction : Interaction := { id := "act", kind := .action }

/-- An event named "motion". -/
def sampleEvent : Interaction := { id := "motion", kind := .event }

/-- A freshly constructed ExposedThing over the four fixtures. -/
def sampleThing : ExposedThing :=
  ExposedThing.init [sampleProp, samplePropRO, sampleAction, sampleEvent]

/-! ## Helper lemmas -/

/-- Looking up a property right after storing it returns the stored
value. -/
theorem lookupV_setV_self (m : PropMap) (i : Interaction) (v : Value) :
    lookupV (setV m i v) i = some v := by
  simp [lookupV, setV]

/-- On a freshly initialized registry, handler resolution yields the
default handler of each of the three seeded keys. -/
theorem getHandler_init (k : HandlerKeys) (i : Interaction) :
    getHandler initRegistry k (some i) = initHandlersGlobal k := by
  cases k <;> simp [getHandler, lookupHandler, initRegistry, initHandlers]

/-! ## Claims -/

/-- C1: for every defined writable property `P` and every value `v`, with
only the default handlers installed, `write_property(P, v)` succeeds
(publishing the property-change event) and a subsequent
`read_property(P)` resolves to `v`. -/
theorem c1_write_then_read_default (t : ExposedThing) (name : String) (v : Value)
    (i : Interaction)
    (hfind : find_interaction t.thing name = some i)
    (hw : i.writable = true)
    (hreg : t.handlers = initRegistry) :
    ∃ t', write_property t name v =
        (.ok t', [⟨PROPERTY_CHANGE, .propChange name v⟩]) ∧
      read_property t' name = .ok v := by
  refine ⟨{ t with propertyValues := setV t.propertyValues i v }, ?_, ?_⟩
  · simp [write_property, hfind, hw, hreg, getHandler_init, initHandlersGlobal,
      runUpdateHandler]
  · simp [read_property, hfind, hreg, getHandler_init, initHandlersGlobal,
      runRetrieveHandler, lookupV_setV_self]

/-- C1 witness: writing 5 to "p" on the sample Thing then reading "p"
yields 5. -/
theorem c1_witness :
    ∃ t', write_property sampleThing "p" (Value.intV 5) =
        (.ok t', [⟨PROPERTY_CHANGE, .propChange "p" (Value.intV 5)⟩]) ∧
      read_property t' "p" = .ok (Value.intV 5) :=
  c1_write_then_read_default sampleThing "p" (Value.intV 5) sampleProp
    (by decide) (by decide) rfl

/-- C2: writing to a defined non-writable property fails with the
non-writable error (`TypeError` in the source) and publishes nothing;
the statement holds for an arbitrary handler registry, so the check
happens before any handler is resolved or invoked. -/
theorem c2_write_nonwritable (t : ExposedThing) (name : String) (v : Value)
    (i : Interaction)
    (hfind : find_interaction t.thing name = some i)
    (hw : i.writable = false) :
    write_property t name v = (.error .propertyNonWritable, []) := by
  simp [write_property, hfind, hw]

/-- C2 witness: writing to the non-writable "q" fails with the
non-writable error and publishes no event. -/
theorem c2_witness :
    write_property sampleThing "q" (Value.intV 7) = (.error .propertyNonWritable, []) :=
  c2_write_nonwritable sampleThing "q" (Value.intV 7) samplePropRO
    (by decide) (by decide)

/-- The registry invariant maintained by the source: `__init__` seeds a
global default and a per-interaction dict for each of the three handler
kinds of the spec's data model (the keys of `_handlers_global` and
`_handlers`); the `observe` string constant is never a key of either. -/
def registryWellFormed (r : HandlerRegistry) : Prop :=
  ∀ k, k ≠ HandlerKeys.observe →
    (r.handlersGlobal k).isSome ∧ (r.handlers k).isSome

/-- The freshly seeded registry satisfies the invariant. -/
theorem registryWellFormed_init : registryWellFormed initRegistry := by
  intro k hk
  cases k <;> first
    | exact ⟨rfl, rfl⟩
    | exact absurd rfl hk

/-- C3: for every handler kind of the spec's data model (the three keys
seeded by `__init__`) and every interaction, `_get_handler` returns the
per-interaction override when one is present, otherwise the global
handler; it never returns `none` (no `KeyError`) because a global default
exists; setting a per-interaction override makes resolution return it;
and `_set_handler` preserves the invariant. -/
theorem c3_handler_resolution (r : HandlerRegistry) (k : HandlerKeys) (i : Interaction)
    (hk : k ≠ HandlerKeys.observe) (hwf : registryWellFormed r) :
    (∀ h, lookupHandler (r.handlers k) i = some h → getHandler r k (some i) = some h) ∧
    (lookupHandler (r.handlers k) i = none →
      getHandler r k (some i) = r.handlersGlobal k) ∧
    (getHandler r k (some i)).isSome ∧
    (∀ h, getHandler (setHandler r k h (some i)) k (some i) = some h) ∧
    (∀ h io, registryWellFormed (setHandler r k h io)) := by
  obtain ⟨hg, hh⟩ := hwf k hk
  refine ⟨?_, ?_, ?_, ?_, ?_⟩
  · intro h hlook
    simp [getHandler, hlook]
  · intro hlook
    simp [getHandler, hlook]
  · cases hlook : lookupHandler (r.handlers k) i with
    | some h => simp [getHandler, hlook]
    | none =>
        simp only [getHandler, hlook]
        exact hg
  · intro h
    obtain ⟨m, hm⟩ := Option.isSome_iff_exists.mp hh
    simp [setHandler, hm, getHandler, lookupHandler]
  · intro h io
    intro k' hk'
    obtain ⟨hg', hh'⟩ := hwf k' hk'
    cases io with
    | none =>
        constructor
        · by_cases hkk : k' = k <;> simp [setHandler, hkk, hg']
        · simpa [setHandler] using hh'
    | some it =>
        cases hm : r.handlers k with
        | none => exact absurd hh (by simp [hm])
        | some m =>
            constructor
            · simpa [setHandler, hm] using hg'
            · by_cases hkk : k' = k <;> simp [setHandler, hm, hkk, hh']

/-- C3 witness: on the fresh registry, resolving UPDATE_PROPERTY for "p"
yields a handler, and after setting a per-interaction override resolution
returns exactly that override. -/
theorem c3_witness :
    (getHandler initRegistry HandlerKeys.updateProperty (some sampleProp)).isSome ∧
    getHandler
        (setHandler initRegistry HandlerKeys.updateProperty HandlerVal.updateDefault
          (some sampleProp))
        HandlerKeys.updateProperty (some sampleProp) = some HandlerVal.updateDefault :=
  ⟨(c3_handler_resolution initRegistry HandlerKeys.updateProperty sampleProp
      (by decide) registryWellFormed_init).2.2.1,
   (c3_handler_resolution initRegistry HandlerKeys.updateProperty sampleProp
      (by decide) registryWellFormed_init).2.2.2.1 HandlerVal.updateDefault⟩

/-- C4: invoking a defined action whose handler resolves to the default
(no per-action override, global still the seeded default) fails with the
undefined-action-handler error and publishes no event. -/
theorem c4_invoke_default_fails (t : ExposedThing) (name : String) (i : Interaction)
    (hfind : find_interaction t.thing name = some i)
    (hover : lookupHandler (t.handlers.handlers HandlerKeys.invokeAction) i = none)
    (hglob : t.handlers.handlersGlobal HandlerKeys.invokeAction =
      some HandlerVal.invokeDefault) :
    invoke_action t name [] = (.error .undefinedActionHandler, []) := by
  simp [invoke_action, hfind, getHandler, hover, hglob, runInvokeHandler]

/-- C4 witness: invoking "act" on the fresh sample Thing fails with the
undefined-action-handler error and publishes nothing. -/
theorem c4_witness :
    invoke_action sampleThing "act" [] = (.error .undefinedActionHandler, []) :=
  c4_invoke_default_fails sampleThing "act" sampleAction (by decide) rfl rfl

/-- C5: a successful `write_property(P, v)` publishes exactly one
PropertyChange event with payload `{name: P, value: v}` (first conjunct,
over every state and handler configuration); and when the resolved write
handler is a user handler whose future fails, the write fails with that
error and publishes nothing (second conjunct). -/
theorem c5_write_publishes_once :
    (∀ (t : ExposedThing) (name : String) (v : Value) (t' : ExposedThing)
        (evs : List Event),
        write_property t name v = (.ok t', evs) →
        evs = [⟨PROPERTY_CHANGE, .propChange name v⟩]) ∧
    (∀ (t : ExposedThing) (name : String) (v : Value) (i : Interaction)
        (f : String → Value → PropMap → Except Error PropMap) (e : Error),
        find_interaction t.thing name = some i →
        i.writable = true →
        getHandler t.handlers HandlerKeys.updateProperty (some i) =
          some (HandlerVal.updateCustom f) →
        f name v t.propertyValues = .error e →
        write_property t name v = (.error e, [])) := by
  constructor
  · intro t name v t' evs h
    unfold write_property at h
    split at h
    · simp at h
    · split at h
      · simp at h
      · split at h
        · simp at h
        · split at h
          · simp at h
          · simp only [Prod.mk.injEq] at h
            exact h.2.symm
  · intro t name v i f e hfind hw hh hf
    simp [write_property, hfind, hw, hh, runUpdateHandler, hf]

/-- A user-supplied write handler whose future always fails. -/
def failingWriteHandler : String → Value → PropMap → Except Error PropMap :=
  fun _ _ _ => .error (.custom 7)

/-- The sample Thing with the failing write handler installed as the
per-interaction override of "p". -/
def sampleThingFailingWrite : ExposedThing :=
  { sampleThing with
    handlers := setHandler initRegistry HandlerKeys.updateProperty
      (.updateCustom failingWriteHandler) (some sampleProp) }

/-- C5 witness: the successful write to "p" publishes exactly its
property-change event, and the same write through the failing handler
fails with the handler's error and publishes nothing. -/
theorem c5_witness :
    ([⟨PROPERTY_CHANGE, EventData.propChange "p" (Value.intV 3)⟩] : List Event) =
      [⟨PROPERTY_CHANGE, EventData.propChange "p" (Value.intV 3)⟩] ∧
    write_property sampleThingFailingWrite "p" (Value.intV 3) =
      (.error (.custom 7), []) :=
  ⟨c5_write_publishes_once.1 sampleThing "p" (Value.intV 3) _ _ rfl,
   c5_write_publishes_once.2 sampleThingFailingWrite "p" (Value.intV 3) sampleProp
     failingWriteHandler (.custom 7) (by decide) (by decide) rfl rfl⟩

/-- C6: `read_property` fails with the not-found error when no
interaction carries the name; and a defined property that was never
written (no entry in the store), read through the default handler,
resolves to `null` and never fails. -/
theorem c6_read_notfound_default_null :
    (∀ (t : ExposedThing) (name : String),
        find_interaction t.thing name = none →
        read_property t name = .error (.interactionNotFound name)) ∧
    (∀ (t : ExposedThing) (name : String) (i : Interaction),
        find_interaction t.thing name = some i →
        t.handlers = initRegistry →
        lookupV t.propertyValues i = none →
        read_property t name = .ok Value.null) := by
  constructor
  · intro t name hfind
    simp [read_property, hfind]
  · intro t name i hfind hreg hval
    simp [read_property, hfind, hreg, getHandler_init, initHandlersGlobal,
      runRetrieveHandler, hval]

/-- C6 witness: reading the undefined "nosuch" fails with not-found;
reading the never-written "p" on the fresh sample Thing yields null. -/
theorem c6_witness :
    read_property sampleThing "nosuch" = .error (.interactionNotFound "nosuch") ∧
    read_property sampleThing "p" = .ok Value.null :=
  ⟨c6_read_notfound_default_null.1 sampleThing "nosuch" (by decide),
   c6_read_notfound_default_null.2 sampleThing "p" sampleProp (by decide) rfl rfl⟩

/-- Appending a fresh interaction to the registry makes lookup-by-name
find exactly it. -/
theorem find_interaction_append_fresh (thing : List Interaction) (i : Interaction)
    (h : find_interaction thing i.id = none) :
    find_interaction (thing ++ [i]) i.id = some i := by
  simp only [find_interaction, List.find?_append] at h ⊢
  simp [h]

/-- C7: a successful `add_property(name, init)` seeds the store so that a
subsequent default-handler read resolves to `init.value`, and it
publishes exactly one DescriptionChange event with change type Property,
method Add, the given name, the serialized init data and the full current
(post-add) Thing description. -/
theorem c7_add_property_read_and_event (t : ExposedThing) (name : String)
    (pinit : ThingPropertyInit) (t' : ExposedThing) (evs : List Event)
    (hreg : t.handlers = initRegistry)
    (hadd : add_property t name pinit = (.ok t', evs)) :
    read_property t' name = .ok pinit.value ∧
    evs = [⟨DESCRIPTION_CHANGE,
      .tdChange .property .add name (some pinit.to_dict)
        (some (thingDescriptionOf t'.thing))⟩] := by
  simp only [add_property] at hadd
  split at hadd
  · simp at hadd
  · rename_i thing' hint
    simp only [Prod.mk.injEq, Except.ok.injEq] at hadd
    obtain ⟨ht', hevs⟩ := hadd
    unfold add_interaction at hint
    split at hint
    · simp at hint
    · rename_i hfresh
      simp only [Option.some.injEq] at hint
      subst hint
      subst ht'
      have hfind := find_interaction_append_fresh t.thing _ hfresh
      constructor
      · simp only [read_property, runRetrieveHandler]
        simp [hfind, hreg, getHandler_init, initHandlersGlobal, lookupV_setV_self]
      · exact hevs.symm

/-- The init record of the "temp" property of the C7 witness. -/
def tempInit : ThingPropertyInit :=
  { description := Value.strV "number", value := Value.intV 20 }

/-- C7 witness: adding "temp" with value 20 to the sample Thing, the
subsequent read yields 20 and the single published event carries
Property/Add/"temp", the init data and the post-add description. -/
theorem c7_witness :
    ∃ t' evs, add_property sampleThing "temp" tempInit = (.ok t', evs) ∧
      read_property t' "temp" = .ok (Value.intV 20) ∧
      evs = [⟨DESCRIPTION_CHANGE,
        .tdChange .property .add "temp" (some tempInit.to_dict)
          (some (thingDescriptionOf t'.thing))⟩] :=
  ⟨_, _, rfl,
   c7_add_property_read_and_event sampleThing "temp" tempInit _ _ rfl rfl⟩

/-- C8: subscribing to property changes fails at subscription time with
the unknown-property error when the name is undefined and with the
not-observable error when the `observable` flag is false; otherwise the
subscription's predicate accepts exactly the events whose bus name is
"propertychange" and whose payload name equals the requested name. -/
theorem c8_on_property_change (t : ExposedThing) (name : String) :
    (find_interaction t.thing name = none →
        on_property_change t name = .error .unknownProperty) ∧
    (∀ i, find_interaction t.thing name = some i → i.observable = false →
        on_property_change t name = .error .propertyNotObservable) ∧
    (∀ i, find_interaction t.thing name = some i → i.observable = true →
        ∃ filt, on_property_change t name = .ok filt ∧
          ∀ ev : Event, filt ev = true ↔
            (ev.name = PROPERTY_CHANGE ∧ ev.dataName = some name)) := by
  refine ⟨?_, ?_, ?_⟩
  · intro hfind
    simp [on_property_change, hfind]
  · intro i hfind hobs
    simp [on_property_change, hfind, hobs]
  · intro i hfind hobs
    refine ⟨fun item => item.name == PROPERTY_CHANGE && item.dataName == some name,
      ?_, ?_⟩
    · simp [on_property_change, hfind, hobs]
    · intro ev
      simp

/-- C8 witness: subscribing on the undefined "nosuch" and the
non-observable "q" fails with the matching errors; subscribing on "p"
yields the property-change-by-name predicate. -/
theorem c8_witness :
    on_property_change sampleThing "nosuch" = .error .unknownProperty ∧
    on_property_change sampleThing "q" = .error .propertyNotObservable ∧
    ∃ filt, on_property_change sampleThing "p" = .ok filt ∧
      ∀ ev : Event, filt ev = true ↔
        (ev.name = PROPERTY_CHANGE ∧ ev.dataName = some "p") :=
  ⟨(c8_on_property_change sampleThing "nosuch").1 (by decide),
   (c8_on_property_change sampleThing "q").2.1 samplePropRO (by decide) (by decide),
   (c8_on_property_change sampleThing "p").2.2 sampleProp (by decide) (by decide)⟩

/-- C9: an event-by-name subscription fails with the unknown-event error
exactly when the name is not a defined interaction, and after
`remove_event(name)` the next `on_event(name)` fails that way. -/
theorem c9_on_event_unknown (t : ExposedThing) (name : String) :
    (on_event t name = .error .unknownEvent ↔
      find_interaction t.thing name = none) ∧
    on_event (remove_event t name).1 name = .error .unknownEvent := by
  constructor
  · cases hfind : find_interaction t.thing name <;> simp [on_event, hfind]
  · have hnone : find_interaction (remove_interaction t.thing name) name = none := by
      simp only [find_interaction, remove_interaction, List.find?_eq_none]
      intro x hx
      simp only [List.mem_filter, bne_iff_ne, ne_eq] at hx
      simp [hx.2]
    simp [on_event, remove_event, hnone]

/-- C9 witness: the iff at the defined event "motion", and removing
"motion" makes the next subscription attempt fail. -/
theorem c9_witness :
    ((on_event sampleThing "motion" = .error .unknownEvent ↔
        find_interaction sampleThing.thing "motion" = none) ∧
      on_event (remove_event sampleThing "motion").1 "motion" =
        .error .unknownEvent) :=
  c9_on_event_unknown sampleThing "motion"

/-- C10: `emit_event(name, payload)` raises the unknown-event error and
publishes nothing when no interaction carries the name; when one does,
it publishes exactly one event with that name and payload. -/
theorem c10_emit_event (t : ExposedThing) (name : String) (payload : Value) :
    (find_interaction t.thing name = none →
        emit_event t name payload = (.error (.unknownEventName name), [])) ∧
    (∀ i, find_interaction t.thing name = some i →
        emit_event t name payload = (.ok (), [⟨name, .plain payload⟩])) := by
  constructor
  · intro hfind
    simp [emit_event, hfind]
  · intro i hfind
    simp [emit_event, hfind]

/-- C10 witness: emitting on the undefined "ghost" fails and publishes
nothing; emitting on "motion" publishes exactly one event with the name
and payload. -/
theorem c10_witness :
    emit_event sampleThing "ghost" (Value.strV "x") =
      (.error (.unknownEventName "ghost"), []) ∧
    emit_event sampleThing "motion" (Value.strV "x") =
      (.ok (), [⟨"motion", .plain (Value.strV "x")⟩]) :=
  ⟨(c10_emit_event sampleThing "ghost" (Value.strV "x")).1 (by decide),
   (c10_emit_event sampleThing "motion" (Value.strV "x")).2 sampleEvent (by decide)⟩

end WotPy
